import Mathlib

/- Verification of the Sanchar-Optimize backend core: the telemetry buffer and
prediction cache of the Network Sentry agent (app/services/network_sentry.py),
the heuristic signal-drop predictor (app/ml/lstm_predictor.py), and the
modality-decision orchestrator (app/services/modality_orchestrator.py,
app/aws/bedrock_client.py).  Python floats are modelled as rationals, the
in-memory dictionaries as total functions into Option, and wall-clock reads
(datetime.now()) as an explicit parameter. -/

set_option maxRecDepth 4000

/- ------------------------------------------------------------------
Configuration constants (app/core/config.py, class Settings).
------------------------------------------------------------------ -/

/-- settings.PREDICTION_THRESHOLD = 0.75. -/
def PREDICTION_THRESHOLD : ℚ := 3/4

/-- settings.VIDEO_MIN_BANDWIDTH = 1000 (Kbps). -/
def VIDEO_MIN_BANDWIDTH : ℚ := 1000

/-- settings.AUDIO_MIN_BANDWIDTH = 500 (Kbps). -/
def AUDIO_MIN_BANDWIDTH : ℚ := 500

/- ------------------------------------------------------------------
Telemetry data model (app/models/telemetry.py).
------------------------------------------------------------------ -/

/-- One network telemetry point (app/models/telemetry.py, class NetworkTelemetry).
The optional location_hash / content_id / content_position fields are carried by
the pydantic model but never read by the code under verification and are omitted. -/
structure NetworkTelemetry where
  device_id : String
  session_id : String
  timestamp : ℚ
  signal_strength : ℚ
  latency_ms : ℚ
  packet_loss_percent : ℚ
  bandwidth_kbps : ℚ
  gps_velocity_kmh : ℚ
deriving DecidableEq

/-- A predicted signal-drop event (app/models/telemetry.py, class
SignalDropPrediction).  The uuid prediction_id is omitted. -/
structure SignalDropPrediction where
  device_id : String
  session_id : String
  timestamp : ℚ
  confidence : ℚ
  predicted_time_seconds : ℚ
  predicted_bandwidth_kbps : ℚ
  prediction_horizon_seconds : ℚ
  model_version : String
  predictor_type : String
  features_used : List String
deriving DecidableEq

/- ------------------------------------------------------------------
Telemetry buffer (app/services/network_sentry.py, NetworkSentryAgent).
The defaultdict(list) buffer is a total function from the composite string
key to the stored list; the absent entry is the empty list.
------------------------------------------------------------------ -/

/-- NetworkSentryAgent.max_buffer_size = 100. -/
def max_buffer_size : ℕ := 100

/-- The composite buffer key built by ingest_telemetry: the python f-string
interpolating device_id, a colon, and session_id. -/
def telemetryKey (t : NetworkTelemetry) : String :=
  t.device_id ++ ":" ++ t.session_id

/-- The last n elements of a list in order (python l[-n:], truncating trim). -/
def lastN (n : ℕ) (l : List α) : List α :=
  l.drop (l.length - n)

/-- NetworkSentryAgent.ingest_telemetry: append the point to its session's
buffer, then, if the buffer exceeds max_buffer_size, keep only the last
max_buffer_size entries (python: buf = buf[-max_buffer_size:]). -/
def ingest_telemetry (buf : String → List NetworkTelemetry) (t : NetworkTelemetry) :
    String → List NetworkTelemetry :=
  fun k =>
    if k = telemetryKey t then
      let appended := buf (telemetryKey t) ++ [t]
      if max_buffer_size < appended.length then
        appended.drop (appended.length - max_buffer_size)
      else appended
    else buf k

/-- Ingesting a sequence of telemetry points one by one, in order. -/
def ingest_all (buf : String → List NetworkTelemetry) (ts : List NetworkTelemetry) :
    String → List NetworkTelemetry :=
  ts.foldl ingest_telemetry buf

/-- The buffer of a freshly constructed NetworkSentryAgent: every key is empty. -/
def empty_buffer : String → List NetworkTelemetry := fun _ => []

/- ------------------------------------------------------------------
Prediction cache (app/services/network_sentry.py).
------------------------------------------------------------------ -/

/-- NetworkSentryAgent.cache_ttl_seconds = 2. -/
def cache_ttl_seconds : ℚ := 2

/-- NetworkSentryAgent._get_cached_prediction: return the cached prediction for
the key if its age (now minus the prediction's timestamp) is below the TTL;
an expired entry is deleted from the cache and none is returned.  The result
pairs the returned value with the cache as it stands after the call. -/
def get_cached_prediction (cache : String → Option SignalDropPrediction)
    (cache_key : String) (now : ℚ) :
    Option SignalDropPrediction × (String → Option SignalDropPrediction) :=
  match cache cache_key with
  | some p =>
    if now - p.timestamp < cache_ttl_seconds then (some p, cache)
    else (none, fun k => if k = cache_key then none else cache k)
  | none => (none, cache)

/- ------------------------------------------------------------------
Heuristic signal-drop predictor (app/ml/lstm_predictor.py, LSTMPredictor).
We model the default configuration of the constructor: no model file is
given, self.model stays None, so predict_signal_drop always takes the
heuristic branch (_predict_with_heuristic).
------------------------------------------------------------------ -/

/-- LSTMPredictor.sequence_length = 10. -/
def sequence_length : ℕ := 10

/-- LSTMPredictor.prediction_horizon = 5 (seconds). -/
def prediction_horizon : ℚ := 5

/-- The degree-1 least-squares slope np.polyfit(range(len ys), ys, 1)[0] over
sample indices 0, 1, ..., n-1.  For the degenerate windows (fewer than two
points) the denominator is zero and the slope is taken to be 0; the code only
evaluates it on windows of sequence_length points. -/
def trend_slope (ys : List ℚ) : ℚ :=
  let n : ℚ := (ys.length : ℚ)
  let xs : List ℚ := (List.range ys.length).map (fun i => (i : ℚ))
  let sx := xs.sum
  let sy := ys.sum
  let sxy := ((xs.zip ys).map (fun p => p.1 * p.2)).sum
  let sxx := (xs.map (fun x => x * x)).sum
  let d := n * sxx - sx * sx
  if d = 0 then 0 else (n * sxy - sx * sy) / d

/-- The confidence arithmetic of LSTMPredictor._predict_with_heuristic,
abstracted over the three trend slopes and the three current (last-sample)
values: base confidence 0.6 when at least two of the three decline/increase
flags hold, else 0.0; plus 0.2 when the current signal is below 0.3, plus
0.15 when the current bandwidth is below 500, plus 0.15 when the current
latency exceeds 500; finally min(1.0, ·). -/
def confidence_calc (signal_trend bandwidth_trend latency_trend
    current_signal current_bandwidth current_latency : ℚ) : ℚ :=
  let indicators_triggered : ℕ :=
    (if signal_trend < -(1/20) then 1 else 0) +
      (if bandwidth_trend < -100 then 1 else 0) +
      (if latency_trend > 50 then 1 else 0)
  let c0 : ℚ := if 2 ≤ indicators_triggered then 3/5 else 0
  let c1 : ℚ := if current_signal < 3/10 then c0 + 1/5 else c0
  let c2 : ℚ := if current_bandwidth < 500 then c1 + 3/20 else c1
  let c3 : ℚ := if current_latency > 500 then c2 + 3/20 else c2
  min 1 c3

/-- The confidence computed by LSTMPredictor._predict_with_heuristic on a
window of telemetry points (the current values are the last samples;
python indexes [-1], the predictor only calls this on nonempty windows). -/
def heuristic_confidence (pts : List NetworkTelemetry) : ℚ :=
  confidence_calc
    (trend_slope (pts.map (·.signal_strength)))
    (trend_slope (pts.map (·.bandwidth_kbps)))
    (trend_slope (pts.map (·.latency_ms)))
    ((pts.map (·.signal_strength)).getLastD 0)
    ((pts.map (·.bandwidth_kbps)).getLastD 0)
    ((pts.map (·.latency_ms)).getLastD 0)

/-- The time-to-drop estimate of _predict_with_heuristic: when the signal is
declining (slope below -0.05) and the slope is nonzero,
max(0.5, min(5.0, |(0.2 - current signal) / slope|)); otherwise 3.0. -/
def heuristic_time_to_drop (pts : List NetworkTelemetry) : ℚ :=
  let signal_trend := trend_slope (pts.map (·.signal_strength))
  let current_signal := (pts.map (·.signal_strength)).getLastD 0
  if signal_trend < -(1/20) ∧ signal_trend ≠ 0 then
    max (1/2) (min 5 |(1/5 - current_signal) / signal_trend|)
  else 3

/-- LSTMPredictor._predict_with_heuristic: emit a prediction exactly when the
computed confidence reaches settings.PREDICTION_THRESHOLD.  The predicted
bandwidth is max(0, current bandwidth + bandwidth slope * 3). -/
def predict_with_heuristic (pts : List NetworkTelemetry)
    (device_id session_id : String) (now : ℚ) : Option SignalDropPrediction :=
  let confidence := heuristic_confidence pts
  if PREDICTION_THRESHOLD ≤ confidence then
    some
      { device_id := device_id
        session_id := session_id
        timestamp := now
        confidence := confidence
        predicted_time_seconds := heuristic_time_to_drop pts
        predicted_bandwidth_kbps :=
          max 0 ((pts.map (·.bandwidth_kbps)).getLastD 0 +
            trend_slope (pts.map (·.bandwidth_kbps)) * 3)
        prediction_horizon_seconds := prediction_horizon
        model_version := "heuristic_fallback"
        predictor_type := "heuristic"
        features_used := ["signal_strength_trend", "bandwidth_trend", "latency_trend"] }
  else none

/-- LSTMPredictor.predict_signal_drop in the default (model-less)
configuration: return none when fewer than sequence_length points are
available (insufficient data, a typed none rather than an error), otherwise
run the heuristic on the most recent sequence_length points
(python: telemetry_history[-sequence_length:]). -/
def predict_signal_drop (telemetry_history : List NetworkTelemetry)
    (device_id session_id : String) (now : ℚ) : Option SignalDropPrediction :=
  if telemetry_history.length < sequence_length then none
  else
    predict_with_heuristic
      (telemetry_history.drop (telemetry_history.length - sequence_length))
      device_id session_id now

/- ------------------------------------------------------------------
Modality data model (app/models/modality.py).
------------------------------------------------------------------ -/

/-- Content modality (app/models/modality.py, enum Modality). -/
inductive Modality where
  | VIDEO
  | AUDIO
  | TEXT_SUMMARY
deriving DecidableEq

/-- When to execute a modality transition (enum TransitionTiming). -/
inductive TransitionTiming where
  | IMMEDIATE
  | WAIT_2S
  | WAIT_5S
deriving DecidableEq

/-- The python enum constructor Modality(value): the string value parsed to a
member, or a ValueError (modelled as none) on any other string. -/
def modalityFromString : String → Option Modality
  | "VIDEO" => some Modality.VIDEO
  | "AUDIO" => some Modality.AUDIO
  | "TEXT_SUMMARY" => some Modality.TEXT_SUMMARY
  | _ => none

/-- The python enum constructor TransitionTiming(value). -/
def timingFromString : String → Option TransitionTiming
  | "IMMEDIATE" => some TransitionTiming.IMMEDIATE
  | "WAIT_2S" => some TransitionTiming.WAIT_2S
  | "WAIT_5S" => some TransitionTiming.WAIT_5S
  | _ => none

/-- A modality decision request (class ModalityDecisionRequest).  The
user_preferences dict is carried by the pydantic model but never read by the
orchestrator or the client and is omitted. -/
structure ModalityDecisionRequest where
  device_id : String
  session_id : String
  content_id : String
  content_position : ℚ
  available_bandwidth_kbps : ℚ
  predicted_signal_drop : Bool
  prediction_confidence : ℚ
  time_to_signal_drop : Option ℚ
  content_description : Option String
  key_concepts : List String
  visual_dependency_score : ℚ
  current_modality : Modality
  transition_history : List String
deriving DecidableEq

/-- An emergency panic request (class PanicSignalRequest). -/
structure PanicSignalRequest where
  device_id : String
  session_id : String
  content_id : String
  content_position : ℚ
  current_modality : Modality
  current_bandwidth_kbps : ℚ
  is_buffering : Bool
  buffer_level_seconds : ℚ
deriving DecidableEq

/-- A modality decision response (class ModalityDecisionResponse).  The
uuid decision_id and the creation timestamp default fields are omitted. -/
structure ModalityDecisionResponse where
  target_modality : Modality
  transition_timing : TransitionTiming
  reasoning : String
  fallback_strategy : Option String
  decision_confidence : ℚ
  model_used : String
  processing_time_ms : ℚ
deriving DecidableEq

/-- One entry of ModalityStatus.transition_history (the dict literal appended
by ModalityOrchestrator._update_session_state). -/
structure TransitionRecord where
  from_modality : Modality
  to_modality : Modality
  timestamp : ℚ
  position : ℚ
  success : Bool
deriving DecidableEq

/-- Per-session modality state (class ModalityStatus). -/
structure ModalityStatus where
  session_id : String
  device_id : String
  content_id : String
  current_modality : Modality
  content_position : ℚ
  last_transition_timestamp : ℚ
  transition_count : ℕ
  transition_history : List TransitionRecord
  total_buffering_events : ℕ
  successful_transitions : ℕ
  failed_transitions : ℕ
deriving DecidableEq

/- ------------------------------------------------------------------
Bedrock client (app/aws/bedrock_client.py, BedrockClient).
------------------------------------------------------------------ -/

/-- The decision dict flowing out of BedrockClient.get_modality_decision into
the orchestrator.  Each field is Option: a missing dict key is none, and the
orchestrator reads the keys with dict.get(key, default). -/
structure DecisionData where
  target_modality : Option String
  transition_timing : Option String
  reasoning : Option String
  fallback_strategy : Option String
  decision_confidence : Option ℚ
  model_used : Option String
  processing_time_ms : Option ℚ
deriving DecidableEq

/-- The slice of the context dict (built by decide_modality_transition) that
BedrockClient reads outside of prompt rendering: _get_fallback_decision reads
available_bandwidth_kbps and visual_dependency_score.  The remaining context
entries only feed the natural-language prompt. -/
structure DecisionContext where
  available_bandwidth_kbps : ℚ
  visual_dependency_score : ℚ
deriving DecidableEq

/-- The context an orchestrator request contributes to the client. -/
def contextOf (r : ModalityDecisionRequest) : DecisionContext :=
  { available_bandwidth_kbps := r.available_bandwidth_kbps
    visual_dependency_score := r.visual_dependency_score }

/-- BedrockClient._get_fallback_decision: the rule-based decision used when the
Bedrock invocation fails or its response is not valid JSON.  Note that the
VIDEO branch also requires visual_dependency_score < 0.7, and that the AUDIO
branch uses timing WAIT_2S.  The code appends the " [Fallback rule-based
decision]" tag to the reasoning at the return site; the concatenation is
folded into the literals here. -/
def get_fallback_decision (ctx : DecisionContext) : DecisionData :=
  if 1000 ≤ ctx.available_bandwidth_kbps ∧ ctx.visual_dependency_score < 7/10 then
    { target_modality := some "VIDEO"
      transition_timing := some "IMMEDIATE"
      reasoning := some "Sufficient bandwidth and low visual dependency. Maintain video. [Fallback rule-based decision]"
      fallback_strategy := some "Continue with best-effort delivery"
      decision_confidence := some (3/5)
      model_used := some "rule-based-fallback"
      processing_time_ms := none }
  else if 500 ≤ ctx.available_bandwidth_kbps then
    { target_modality := some "AUDIO"
      transition_timing := some "WAIT_2S"
      reasoning := some "Moderate bandwidth. Transition to audio after current segment. [Fallback rule-based decision]"
      fallback_strategy := some "Continue with best-effort delivery"
      decision_confidence := some (3/5)
      model_used := some "rule-based-fallback"
      processing_time_ms := none }
  else
    { target_modality := some "TEXT_SUMMARY"
      transition_timing := some "IMMEDIATE"
      reasoning := some "Low bandwidth. Immediate transition to text summary. [Fallback rule-based decision]"
      fallback_strategy := some "Continue with best-effort delivery"
      decision_confidence := some (3/5)
      model_used := some "rule-based-fallback"
      processing_time_ms := none }

/-- BedrockClient._get_mock_response followed by the JSON parse in
get_modality_decision: when the boto3 client is unavailable, invoke_model
returns a mock success whose content depends on whether the rendered prompt
contains "800" or (lower-cased) "low"; that string test on the rendered
prompt is abstracted as the boolean argument.  The mock JSON has no
model_used key; get_modality_decision stamps processing_time_ms from the
mock envelope (300). -/
def get_mock_decision (prompt_mentions_800_or_low : Bool) : DecisionData :=
  if prompt_mentions_800_or_low then
    { target_modality := some "AUDIO"
      transition_timing := some "WAIT_2S"
      reasoning := some "Bandwidth at 800 Kbps suggests audio modality. Waiting 2s to complete current concept."
      fallback_strategy := some "If audio fails, transition to TEXT_SUMMARY"
      decision_confidence := some (17/20)
      model_used := none
      processing_time_ms := some 300 }
  else
    { target_modality := some "VIDEO"
      transition_timing := some "IMMEDIATE"
      reasoning := some "Sufficient bandwidth to maintain video quality."
      fallback_strategy := some "Monitor for degradation"
      decision_confidence := some (9/10)
      model_used := none
      processing_time_ms := some 300 }

/-- The outcome of the single oracle round trip inside
BedrockClient.get_modality_decision, as the code distinguishes it:
the boto3 client is unavailable (invoke_model returns the mock success);
the invocation raises or errors (invoke_model returns success=False);
the invocation succeeds but the content is not valid JSON; or the content
parses to a decision dict. -/
inductive OracleEvent where
  | clientUnavailable (prompt_mentions_800_or_low : Bool)
  | invokeFailure
  | jsonParseFailure
  | parsed (d : DecisionData)
deriving DecidableEq

/-- BedrockClient.get_modality_decision: a parsed success is passed through;
an invocation failure or malformed JSON yields _get_fallback_decision; an
unavailable client yields the parsed mock response.  (On the success path the
code also stamps processing_time_ms from the invocation envelope — wall-clock
time, not modelled.) -/
def get_modality_decision (ev : OracleEvent) (ctx : DecisionContext) : DecisionData :=
  match ev with
  | OracleEvent.clientUnavailable b => get_mock_decision b
  | OracleEvent.invokeFailure => get_fallback_decision ctx
  | OracleEvent.jsonParseFailure => get_fallback_decision ctx
  | OracleEvent.parsed d => d

/- ------------------------------------------------------------------
Modality orchestrator (app/services/modality_orchestrator.py,
ModalityOrchestrator).  self.session_states is a python dict keyed by
session_id alone, modelled as a total function String → Option ModalityStatus.
------------------------------------------------------------------ -/

/-- The history trim bound in _update_session_state (keep the last 10). -/
def history_capacity : ℕ := 10

/-- The session-state table of a freshly constructed orchestrator. -/
def empty_states : String → Option ModalityStatus := fun _ => none

/-- ModalityOrchestrator._update_session_state: create the state on first
sight of the session_id (keyed by session_id only); when the modality
actually changes, count the transition, append the record and trim the
history to the last 10, and bump the success or failure counter; always
overwrite current_modality, content_position and last_transition_timestamp. -/
def update_session_state (states : String → Option ModalityStatus)
    (session_id device_id content_id : String)
    (from_modality to_modality : Modality)
    (content_position : ℚ) (success : Bool) (now : ℚ) :
    String → Option ModalityStatus :=
  let st0 : ModalityStatus :=
    match states session_id with
    | some st => st
    | none =>
      { session_id := session_id
        device_id := device_id
        content_id := content_id
        current_modality := to_modality
        content_position := content_position
        last_transition_timestamp := now
        transition_count := 0
        transition_history := []
        total_buffering_events := 0
        successful_transitions := 0
        failed_transitions := 0 }
  let st1 : ModalityStatus :=
    if from_modality ≠ to_modality then
      let hist := st0.transition_history ++
        [{ from_modality := from_modality
           to_modality := to_modality
           timestamp := now
           position := content_position
           success := success }]
      { st0 with
        transition_count := st0.transition_count + 1
        transition_history :=
          if history_capacity < hist.length then hist.drop (hist.length - history_capacity)
          else hist
        successful_transitions := st0.successful_transitions + (if success then 1 else 0)
        failed_transitions := st0.failed_transitions + (if success then 0 else 1) }
    else st0
  let st2 : ModalityStatus :=
    { st1 with
      current_modality := to_modality
      content_position := content_position
      last_transition_timestamp := now }
  fun k => if k = session_id then some st2 else states k

/-- ModalityOrchestrator._get_safe_fallback_decision: the conservative
rule-based decision returned when an exception escapes inside
decide_modality_transition. -/
def get_safe_fallback_decision (request : ModalityDecisionRequest) :
    ModalityDecisionResponse :=
  if VIDEO_MIN_BANDWIDTH ≤ request.available_bandwidth_kbps then
    { target_modality := Modality.VIDEO
      transition_timing := TransitionTiming.IMMEDIATE
      reasoning := "Sufficient bandwidth. Maintaining video. [Fallback decision]"
      fallback_strategy := some "Continue best-effort delivery"
      decision_confidence := 3/5
      model_used := "rule-based-fallback"
      processing_time_ms := 5 }
  else if AUDIO_MIN_BANDWIDTH ≤ request.available_bandwidth_kbps then
    { target_modality := Modality.AUDIO
      transition_timing := TransitionTiming.IMMEDIATE
      reasoning := "Moderate bandwidth. Transitioning to audio. [Fallback decision]"
      fallback_strategy := some "Continue best-effort delivery"
      decision_confidence := 3/5
      model_used := "rule-based-fallback"
      processing_time_ms := 5 }
  else
    { target_modality := Modality.TEXT_SUMMARY
      transition_timing := TransitionTiming.IMMEDIATE
      reasoning := "Low bandwidth. Transitioning to text summary. [Fallback decision]"
      fallback_strategy := some "Continue best-effort delivery"
      decision_confidence := 3/5
      model_used := "rule-based-fallback"
      processing_time_ms := 5 }

/-- ModalityOrchestrator.decide_modality_transition: fetch the decision dict
from the client, parse target_modality and transition_timing through the enum
constructors, then build the pydantic ModalityDecisionResponse — whose
decision_confidence field is declared Field(ge=0.0, le=1.0), so a confidence
outside [0, 1] raises ValidationError at construction — and update the
session state with success=True.  A ValueError from either enum constructor
or a pydantic ValidationError is the exception the surrounding try/except
turns into the safe fallback, returned WITHOUT updating session state.
Returns the response together with the session-state table after the call.
(The code computes processing_time_ms from wall-clock time when the dict has
none; modelled as 0.) -/
def decide_modality_transition (ev : OracleEvent)
    (request : ModalityDecisionRequest)
    (states : String → Option ModalityStatus) (now : ℚ) :
    ModalityDecisionResponse × (String → Option ModalityStatus) :=
  let decision_data := get_modality_decision ev (contextOf request)
  match modalityFromString (decision_data.target_modality.getD "VIDEO"),
        timingFromString (decision_data.transition_timing.getD "IMMEDIATE") with
  | some target_modality, some transition_timing =>
    if 0 ≤ decision_data.decision_confidence.getD (4/5) ∧
        decision_data.decision_confidence.getD (4/5) ≤ 1 then
      let response : ModalityDecisionResponse :=
        { target_modality := target_modality
          transition_timing := transition_timing
          reasoning := decision_data.reasoning.getD "AI decision reasoning"
          fallback_strategy := decision_data.fallback_strategy
          decision_confidence := decision_data.decision_confidence.getD (4/5)
          model_used := decision_data.model_used.getD "bedrock-claude-3.5-sonnet"
          processing_time_ms := decision_data.processing_time_ms.getD 0 }
      (response,
        update_session_state states request.session_id request.device_id request.content_id
          request.current_modality target_modality request.content_position true now)
    else (get_safe_fallback_decision request, states)
  | _, _ => (get_safe_fallback_decision request, states)

/-- ModalityOrchestrator.handle_panic_signal: the oracle-free panic rule, then
a session-state update with success=True. -/
def handle_panic_signal (request : PanicSignalRequest)
    (states : String → Option ModalityStatus) (now : ℚ) :
    ModalityDecisionResponse × (String → Option ModalityStatus) :=
  let bandwidth := request.current_bandwidth_kbps
  let buffer_level := request.buffer_level_seconds
  let choice : Modality × TransitionTiming × String × ℚ :=
    if bandwidth < AUDIO_MIN_BANDWIDTH ∨ buffer_level < 1 then
      (Modality.TEXT_SUMMARY, TransitionTiming.IMMEDIATE,
        "Critical network failure. Immediate transition to text summary to prevent complete interruption.",
        (19/20 : ℚ))
    else if bandwidth < VIDEO_MIN_BANDWIDTH then
      (Modality.AUDIO, TransitionTiming.IMMEDIATE,
        "Severe bandwidth degradation. Immediate transition to audio to maintain content flow.",
        (9/10 : ℚ))
    else
      (request.current_modality, TransitionTiming.WAIT_2S,
        "Bandwidth still acceptable. Monitoring situation before transition.",
        (4/5 : ℚ))
  let response : ModalityDecisionResponse :=
    { target_modality := choice.1
      transition_timing := choice.2.1
      reasoning := choice.2.2.1
      fallback_strategy := some "If fails, escalate to next lower modality"
      decision_confidence := choice.2.2.2
      model_used := "rule-based-panic-handler"
      processing_time_ms := 10 }
  (response,
    update_session_state states request.session_id request.device_id request.content_id
      request.current_modality choice.1 request.content_position true now)

/-- ModalityOrchestrator.get_session_status: a plain dict lookup by session_id. -/
def get_session_status (states : String → Option ModalityStatus)
    (session_id : String) : Option ModalityStatus :=
  states session_id

/-- ModalityOrchestrator.clear_session: delete the session_id entry. -/
def clear_session (states : String → Option ModalityStatus)
    (session_id : String) : String → Option ModalityStatus :=
  fun k => if k = session_id then none else states k

/-- One orchestrator call, for reasoning about arbitrary call sequences. -/
inductive OrchOp where
  | decision (ev : OracleEvent) (request : ModalityDecisionRequest) (now : ℚ)
  | panic (request : PanicSignalRequest) (now : ℚ)

/-- The session-state table produced by one orchestrator call. -/
def apply_op (states : String → Option ModalityStatus) :
    OrchOp → (String → Option ModalityStatus)
  | OrchOp.decision ev request now => (decide_modality_transition ev request states now).2
  | OrchOp.panic request now => (handle_panic_signal request states now).2

/-- The session-state table after a sequence of orchestrator calls, starting
from the freshly constructed orchestrator. -/
def run_ops (ops : List OrchOp) : String → Option ModalityStatus :=
  ops.foldl apply_op empty_states

/- ------------------------------------------------------------------
C9: insufficient data.
------------------------------------------------------------------ -/

/-- C9: for every telemetry window with fewer than sequence_length (10)
points, predict_signal_drop returns none; the insufficient-data case is a
typed none result, not a raised error. -/
theorem insufficient_window_returns_none
    (telemetry_history : List NetworkTelemetry) (device_id session_id : String)
    (now : ℚ) (h : telemetry_history.length < sequence_length) :
    predict_signal_drop telemetry_history device_id session_id now = none := by
  simp [predict_signal_drop, h]

/-- Witness for insufficient_window_returns_none at the empty window. -/
theorem insufficient_window_returns_none_witness :
    predict_signal_drop [] "dev" "ses" 0 = none :=
  insufficient_window_returns_none [] "dev" "ses" 0 (by decide)

/- ------------------------------------------------------------------
C7: prediction-cache TTL.
------------------------------------------------------------------ -/

/-- C7: the prediction cache never returns a prediction whose age reaches the
TTL of 2 seconds: a returned prediction is strictly younger than the TTL, and
a get on a key that is absent or expired returns none and leaves no entry for
that key in the cache after the call (expired entries are evicted on read). -/
theorem prediction_cache_ttl (cache : String → Option SignalDropPrediction)
    (cache_key : String) (now : ℚ) :
    (∀ p, (get_cached_prediction cache cache_key now).1 = some p →
      now - p.timestamp < cache_ttl_seconds) ∧
    ((∀ p, cache cache_key = some p → cache_ttl_seconds ≤ now - p.timestamp) →
      (get_cached_prediction cache cache_key now).1 = none ∧
      (get_cached_prediction cache cache_key now).2 cache_key = none) := by
  rcases hc : cache cache_key with _ | p
  · constructor
    · intro q hq
      simp [get_cached_prediction, hc] at hq
    · intro _
      exact ⟨by simp [get_cached_prediction, hc], by simp [get_cached_prediction, hc]⟩
  · by_cases hage : now - p.timestamp < cache_ttl_seconds
    · constructor
      · intro q hq
        simp only [get_cached_prediction, hc, if_pos hage] at hq
        cases hq
        exact hage
      · intro hexp
        exact absurd (hexp p rfl) (not_le.mpr hage)
    · constructor
      · intro q hq
        simp [get_cached_prediction, hc, if_neg hage] at hq
      · intro _
        exact ⟨by simp [get_cached_prediction, hc, hage],
          by simp [get_cached_prediction, hc, hage]⟩

/-- A concrete stale cache entry for the TTL witness. -/
def stale_prediction : SignalDropPrediction :=
  { device_id := "dev"
    session_id := "ses"
    timestamp := 0
    confidence := 4/5
    predicted_time_seconds := 3
    predicted_bandwidth_kbps := 100
    prediction_horizon_seconds := 5
    model_version := "heuristic_fallback"
    predictor_type := "heuristic"
    features_used := [] }

/-- A cache holding only the stale entry. -/
def stale_cache : String → Option SignalDropPrediction :=
  fun k => if k = "dev:ses" then some stale_prediction else none

/-- Witness for prediction_cache_ttl: a 5-second-old entry (TTL 2) is neither
returned nor kept. -/
theorem prediction_cache_ttl_witness :
    (get_cached_prediction stale_cache "dev:ses" 5).1 = none ∧
    (get_cached_prediction stale_cache "dev:ses" 5).2 "dev:ses" = none :=
  (prediction_cache_ttl stale_cache "dev:ses" 5).2 (by
    intro p hp
    simp only [stale_cache, if_pos rfl] at hp
    cases hp
    norm_num [stale_prediction, cache_ttl_seconds])

/- ------------------------------------------------------------------
C8: telemetry buffer FIFO bound.
------------------------------------------------------------------ -/

/-- Appending one element to a lastN-suffix and trimming again is the
lastN-suffix of the longer list: the single-step shape of the buffer trim. -/
theorem trim_lastN_concat (n : ℕ) (l : List α) (x : α) :
    (if n < (lastN n l ++ [x]).length
      then (lastN n l ++ [x]).drop ((lastN n l ++ [x]).length - n)
      else lastN n l ++ [x]) = lastN n (l ++ [x]) := by
  have key : lastN n l ++ [x] = (l ++ [x]).drop (l.length - n) := by
    rw [List.drop_append_eq_append_drop]
    have h0 : l.length - n - l.length = 0 := by omega
    simp [lastN, h0]
  by_cases hc : n < (lastN n l ++ [x]).length
  · rw [if_pos hc, key, List.drop_drop]
    have hlen : (lastN n l ++ [x]).length = l.length - (l.length - n) + 1 := by
      simp [lastN]
    unfold lastN
    congr 1
    rw [key] at hc
    simp only [List.length_drop, List.length_append, List.length_singleton] at hc ⊢
    omega
  · rw [if_neg hc, key]
    unfold lastN
    congr 1
    rw [key] at hc
    simp only [List.length_drop, List.length_append, List.length_singleton, not_lt] at hc ⊢
    omega

/-- Running ingest over a list of points keeps, for every key, exactly the
lastN-suffix of that key's full ingestion history. -/
theorem ingest_all_spec (ts : List NetworkTelemetry) :
    ∀ (hist buf : String → List NetworkTelemetry),
      (∀ k, buf k = lastN max_buffer_size (hist k)) →
      ∀ k, ingest_all buf ts k =
        lastN max_buffer_size (hist k ++ ts.filter (fun t => telemetryKey t == k)) := by
  induction ts with
  | nil =>
    intro hist buf hb k
    simpa [ingest_all] using hb k
  | cons t ts ih =>
    intro hist buf hb k
    have step : ∀ k2, ingest_telemetry buf t k2 =
        lastN max_buffer_size
          (hist k2 ++ (if telemetryKey t == k2 then [t] else [])) := by
      intro k2
      by_cases hk : k2 = telemetryKey t
      · subst hk
        simp only [ingest_telemetry, if_pos rfl, beq_self_eq_true, if_true]
        rw [hb]
        exact trim_lastN_concat max_buffer_size (hist (telemetryKey t)) t
      · have hne : (telemetryKey t == k2) = false := by
          simp [beq_eq_false_iff_ne]
          exact fun h => hk h.symm
        simp only [ingest_telemetry, if_neg hk, hne]
        simpa using hb k2
    have hrec := ih (fun k3 => hist k3 ++ (if telemetryKey t == k3 then [t] else []))
      (ingest_telemetry buf t) step k
    have hfil : (hist k ++ (if telemetryKey t == k then [t] else [])) ++
        ts.filter (fun t2 => telemetryKey t2 == k) =
        hist k ++ (t :: ts).filter (fun t2 => telemetryKey t2 == k) := by
      rw [List.append_assoc, List.filter_cons]
      by_cases hk : (telemetryKey t == k) = true
      · simp [hk]
      · simp [hk]
    calc ingest_all buf (t :: ts) k
        = ingest_all (ingest_telemetry buf t) ts k := by simp [ingest_all]
      _ = lastN max_buffer_size
            ((hist k ++ (if telemetryKey t == k then [t] else [])) ++
              ts.filter (fun t2 => telemetryKey t2 == k)) := hrec
      _ = lastN max_buffer_size (hist k ++ (t :: ts).filter (fun t2 => telemetryKey t2 == k)) := by
            rw [hfil]

/-- C8: for every key, after any sequence of ingest operations the telemetry
buffer holds exactly the most recent max_buffer_size (100) points ingested
for that key, in ingestion order (FIFO eviction of the oldest), and in
particular never more than max_buffer_size points. -/
theorem telemetry_buffer_fifo (ts : List NetworkTelemetry) (k : String) :
    ingest_all empty_buffer ts k =
      lastN max_buffer_size (ts.filter (fun t => telemetryKey t == k)) ∧
    (ingest_all empty_buffer ts k).length ≤ max_buffer_size := by
  have h := ingest_all_spec ts (fun _ => []) empty_buffer
    (fun k2 => by simp [empty_buffer, lastN]) k
  simp only [List.nil_append] at h
  refine ⟨h, ?_⟩
  rw [h]
  simp only [lastN, List.length_drop]
  omega

/- ------------------------------------------------------------------
C6 and C10: the panic rules.
------------------------------------------------------------------ -/

/-- C6: handle_panic_signal returns TEXT_SUMMARY / IMMEDIATE / 0.95 whenever
bandwidth < AUDIO_MIN_BANDWIDTH (500) or the buffer is below 1 second, and
otherwise AUDIO / IMMEDIATE / 0.90 whenever bandwidth < VIDEO_MIN_BANDWIDTH
(1000). -/
theorem handle_panic_rules (request : PanicSignalRequest)
    (states : String → Option ModalityStatus) (now : ℚ) :
    (request.current_bandwidth_kbps < AUDIO_MIN_BANDWIDTH ∨
        request.buffer_level_seconds < 1 →
      (handle_panic_signal request states now).1.target_modality = Modality.TEXT_SUMMARY ∧
      (handle_panic_signal request states now).1.transition_timing = TransitionTiming.IMMEDIATE ∧
      (handle_panic_signal request states now).1.decision_confidence = 19/20) ∧
    (¬(request.current_bandwidth_kbps < AUDIO_MIN_BANDWIDTH ∨
        request.buffer_level_seconds < 1) →
      request.current_bandwidth_kbps < VIDEO_MIN_BANDWIDTH →
      (handle_panic_signal request states now).1.target_modality = Modality.AUDIO ∧
      (handle_panic_signal request states now).1.transition_timing = TransitionTiming.IMMEDIATE ∧
      (handle_panic_signal request states now).1.decision_confidence = 9/10) := by
  constructor
  · intro h
    simp [handle_panic_signal, h]
  · intro h1 h2
    simp [handle_panic_signal, h1, h2]

/-- Scenario B request: bandwidth 200 Kbps, buffer 0.5 s. -/
def panic_request_critical : PanicSignalRequest :=
  { device_id := "dev"
    session_id := "ses"
    content_id := "c"
    content_position := 0
    current_modality := Modality.VIDEO
    current_bandwidth_kbps := 200
    is_buffering := true
    buffer_level_seconds := 1/2 }

/-- Scenario C request: bandwidth 700 Kbps, buffer 5 s. -/
def panic_request_moderate : PanicSignalRequest :=
  { device_id := "dev"
    session_id := "ses"
    content_id := "c"
    content_position := 0
    current_modality := Modality.VIDEO
    current_bandwidth_kbps := 700
    is_buffering := false
    buffer_level_seconds := 5 }

/-- Witness for handle_panic_rules: the two concrete scenarios of the claim. -/
theorem handle_panic_rules_witness :
    ((handle_panic_signal panic_request_critical empty_states 0).1.target_modality =
        Modality.TEXT_SUMMARY ∧
      (handle_panic_signal panic_request_critical empty_states 0).1.transition_timing =
        TransitionTiming.IMMEDIATE ∧
      (handle_panic_signal panic_request_critical empty_states 0).1.decision_confidence = 19/20) ∧
    ((handle_panic_signal panic_request_moderate empty_states 0).1.target_modality =
        Modality.AUDIO ∧
      (handle_panic_signal panic_request_moderate empty_states 0).1.transition_timing =
        TransitionTiming.IMMEDIATE ∧
      (handle_panic_signal panic_request_moderate empty_states 0).1.decision_confidence = 9/10) :=
  ⟨(handle_panic_rules panic_request_critical empty_states 0).1 (by decide),
    (handle_panic_rules panic_request_moderate empty_states 0).2 (by decide) (by decide)⟩

/-- C10: every panic decision has timing IMMEDIATE or WAIT_2S (never WAIT_5S)
and confidence exactly 0.95, 0.90 or 0.80; in the WAIT_2S case the target is
the request's current modality, so the session-state update records no
transition (counters and history are unchanged). -/
theorem panic_timing_confidence_range (request : PanicSignalRequest)
    (states : String → Option ModalityStatus) (now : ℚ) :
    ((handle_panic_signal request states now).1.transition_timing = TransitionTiming.IMMEDIATE ∨
      (handle_panic_signal request states now).1.transition_timing = TransitionTiming.WAIT_2S) ∧
    ((handle_panic_signal request states now).1.decision_confidence = 19/20 ∨
      (handle_panic_signal request states now).1.decision_confidence = 9/10 ∨
      (handle_panic_signal request states now).1.decision_confidence = 4/5) ∧
    ((handle_panic_signal request states now).1.transition_timing = TransitionTiming.WAIT_2S →
      (handle_panic_signal request states now).1.target_modality = request.current_modality ∧
      ((handle_panic_signal request states now).2 request.session_id).map
          (fun st => (st.transition_count, st.successful_transitions, st.failed_transitions,
            st.transition_history)) =
        some (match states request.session_id with
          | some st0 => (st0.transition_count, st0.successful_transitions,
              st0.failed_transitions, st0.transition_history)
          | none => (0, 0, 0, []))) := by
  by_cases h1 : request.current_bandwidth_kbps < AUDIO_MIN_BANDWIDTH ∨
      request.buffer_level_seconds < 1
  · refine ⟨Or.inl ?_, Or.inl ?_, ?_⟩
    · simp [handle_panic_signal, h1]
    · simp [handle_panic_signal, h1]
    · intro habs
      simp [handle_panic_signal, h1] at habs
  · by_cases h2 : request.current_bandwidth_kbps < VIDEO_MIN_BANDWIDTH
    · refine ⟨Or.inl ?_, Or.inr (Or.inl ?_), ?_⟩
      · simp [handle_panic_signal, h1, h2]
      · simp [handle_panic_signal, h1, h2]
      · intro habs
        simp [handle_panic_signal, h1, h2] at habs
    · refine ⟨Or.inr ?_, Or.inr (Or.inr ?_), ?_⟩
      · simp [handle_panic_signal, h1, h2]
      · simp [handle_panic_signal, h1, h2]
      · intro _
        constructor
        · simp [handle_panic_signal, h1, h2]
        · rcases hst : states request.session_id with _ | st0
          · simp [handle_panic_signal, h1, h2, update_session_state, hst]
          · simp [handle_panic_signal, h1, h2, update_session_state, hst]

/-- A panic request on the stable branch: bandwidth 2000 Kbps, buffer 5 s. -/
def panic_request_stable : PanicSignalRequest :=
  { device_id := "dev"
    session_id := "ses"
    content_id := "c"
    content_position := 0
    current_modality := Modality.VIDEO
    current_bandwidth_kbps := 2000
    is_buffering := false
    buffer_level_seconds := 5 }

/-- Witness for panic_timing_confidence_range: on the stable branch the
decision is WAIT_2S, keeps the current modality, and the session state
records no transition. -/
theorem panic_timing_confidence_range_witness :
    (handle_panic_signal panic_request_stable empty_states 0).1.target_modality =
      panic_request_stable.current_modality ∧
    ((handle_panic_signal panic_request_stable empty_states 0).2 "ses").map
        (fun st => (st.transition_count, st.successful_transitions, st.failed_transitions,
          st.transition_history)) =
      some (0, 0, 0, []) :=
  (panic_timing_confidence_range panic_request_stable empty_states 0).2.2 (by decide)

/- ------------------------------------------------------------------
C2: state update on every decide path.
------------------------------------------------------------------ -/

/-- A well-formed oracle decision dict choosing AUDIO immediately. -/
def parsed_audio_decision : DecisionData :=
  { target_modality := some "AUDIO"
    transition_timing := some "IMMEDIATE"
    reasoning := some "Bandwidth dropping; audio is sufficient."
    fallback_strategy := none
    decision_confidence := some (17/20)
    model_used := some "bedrock-claude-3.5-sonnet"
    processing_time_ms := some 1 }

/-- An oracle decision dict whose target_modality is outside the Modality
enum: parsing it raises ValueError inside the orchestrator's try block. -/
def malformed_modality_decision : DecisionData :=
  { target_modality := some "HOLOGRAM"
    transition_timing := some "IMMEDIATE"
    reasoning := some "nonsense"
    fallback_strategy := none
    decision_confidence := some (1/2)
    model_used := none
    processing_time_ms := none }

/-- An oracle decision dict whose enum strings both parse but whose
decision_confidence 1.5 violates the pydantic range Field(ge=0.0, le=1.0) of
ModalityDecisionResponse: constructing the response raises ValidationError. -/
def out_of_range_confidence_decision : DecisionData :=
  { target_modality := some "AUDIO"
    transition_timing := some "IMMEDIATE"
    reasoning := some "Confidence out of range."
    fallback_strategy := none
    decision_confidence := some (3/2)
    model_used := none
    processing_time_ms := none }

/-- A decision request with bandwidth 1200 Kbps. -/
def request_bw1200 : ModalityDecisionRequest :=
  { device_id := "dev"
    session_id := "ses"
    content_id := "c"
    content_position := 0
    available_bandwidth_kbps := 1200
    predicted_signal_drop := true
    prediction_confidence := 1/2
    time_to_signal_drop := none
    content_description := none
    key_concepts := []
    visual_dependency_score := 1/2
    current_modality := Modality.VIDEO
    transition_history := [] }

/-- C2 counterexample: two decide calls that return the safe fallback
decision WITHOUT updating the session state — afterwards the session has no
state at all, refuting "updates the per-session modality state ... on every
execution path".  First, an oracle response whose target_modality parses to
no enum member; second, a response whose enum strings both parse but whose
decision_confidence 1.5 fails the pydantic ge/le validation of
ModalityDecisionResponse. -/
theorem decide_failure_skips_state_update_counterexample :
    ((decide_modality_transition (OracleEvent.parsed malformed_modality_decision)
        request_bw1200 empty_states 0).1 = get_safe_fallback_decision request_bw1200 ∧
      (decide_modality_transition (OracleEvent.parsed malformed_modality_decision)
        request_bw1200 empty_states 0).2 "ses" = none) ∧
    ((decide_modality_transition (OracleEvent.parsed out_of_range_confidence_decision)
        request_bw1200 empty_states 0).1 = get_safe_fallback_decision request_bw1200 ∧
      (decide_modality_transition (OracleEvent.parsed out_of_range_confidence_decision)
        request_bw1200 empty_states 0).2 "ses" = none) := by
  refine ⟨⟨?_, ?_⟩, ⟨?_, ?_⟩⟩ <;> with_unfolding_all decide

/-- C2 (amended): decide updates the per-session state (with success=True and
the parsed target modality) exactly when the decision data coming back from
the client parses: both enum strings name enum members AND the confidence the
response will carry passes the pydantic range check (0 ≤ confidence ≤ 1).
When enum parsing or response validation raises — a malformed oracle
response — the safe fallback decision is returned and the session-state
table is left untouched. -/
theorem decide_state_update_characterization (ev : OracleEvent)
    (request : ModalityDecisionRequest)
    (states : String → Option ModalityStatus) (now : ℚ) :
    (∀ tm tt,
      modalityFromString
        ((get_modality_decision ev (contextOf request)).target_modality.getD "VIDEO") = some tm →
      timingFromString
        ((get_modality_decision ev (contextOf request)).transition_timing.getD "IMMEDIATE") = some tt →
      0 ≤ (get_modality_decision ev (contextOf request)).decision_confidence.getD (4/5) →
      (get_modality_decision ev (contextOf request)).decision_confidence.getD (4/5) ≤ 1 →
      (decide_modality_transition ev request states now).2 =
        update_session_state states request.session_id request.device_id request.content_id
          request.current_modality tm request.content_position true now ∧
      ((decide_modality_transition ev request states now).2 request.session_id).isSome = true) ∧
    (modalityFromString
        ((get_modality_decision ev (contextOf request)).target_modality.getD "VIDEO") = none ∨
      timingFromString
        ((get_modality_decision ev (contextOf request)).transition_timing.getD "IMMEDIATE") = none ∨
      ¬(0 ≤ (get_modality_decision ev (contextOf request)).decision_confidence.getD (4/5) ∧
          (get_modality_decision ev (contextOf request)).decision_confidence.getD (4/5) ≤ 1) →
      (decide_modality_transition ev request states now).1 = get_safe_fallback_decision request ∧
      (decide_modality_transition ev request states now).2 = states) := by
  rcases hm : modalityFromString
      ((get_modality_decision ev (contextOf request)).target_modality.getD "VIDEO") with _ | tm0
  · constructor
    · intro tm tt htm
      exact absurd htm (by simp [hm])
    · intro _
      constructor
      · simp [decide_modality_transition, hm]
      · simp [decide_modality_transition, hm]
  · rcases ht : timingFromString
        ((get_modality_decision ev (contextOf request)).transition_timing.getD "IMMEDIATE")
        with _ | tt0
    · constructor
      · intro tm tt htm htt
        exact absurd htt (by simp [ht])
      · intro _
        constructor
        · simp [decide_modality_transition, hm, ht]
        · simp [decide_modality_transition, hm, ht]
    · by_cases hrange :
          0 ≤ (get_modality_decision ev (contextOf request)).decision_confidence.getD (4/5) ∧
          (get_modality_decision ev (contextOf request)).decision_confidence.getD (4/5) ≤ 1
      · constructor
        · intro tm tt htm htt hc0 hc1
          have htm2 : tm = tm0 := (Option.some_inj.mp htm).symm
          have htt2 : tt = tt0 := (Option.some_inj.mp htt).symm
          subst htm2
          subst htt2
          constructor
          · simp [decide_modality_transition, hm, ht, hrange]
          · simp [decide_modality_transition, hm, ht, hrange, update_session_state]
        · intro habs
          rcases habs with h | h | h
          · exact absurd h (by simp [hm])
          · exact absurd h (by simp [ht])
          · exact absurd hrange h
      · constructor
        · intro tm tt htm htt hc0 hc1
          exact absurd ⟨hc0, hc1⟩ hrange
        · intro _
          constructor
          · simp [decide_modality_transition, hm, ht, hrange]
          · simp [decide_modality_transition, hm, ht, hrange]

/-- Witness for decide_state_update_characterization: a parsed AUDIO decision
does update the state for the session. -/
theorem decide_state_update_characterization_witness :
    (decide_modality_transition (OracleEvent.parsed parsed_audio_decision)
        request_bw1200 empty_states 0).2 =
      update_session_state empty_states "ses" "dev" "c" Modality.VIDEO Modality.AUDIO
        0 true 0 ∧
    ((decide_modality_transition (OracleEvent.parsed parsed_audio_decision)
        request_bw1200 empty_states 0).2 "ses").isSome = true :=
  (decide_state_update_characterization (OracleEvent.parsed parsed_audio_decision)
    request_bw1200 empty_states 0).1 Modality.AUDIO TransitionTiming.IMMEDIATE rfl rfl
    (by with_unfolding_all decide) (by with_unfolding_all decide)

/- ------------------------------------------------------------------
C3: isolation of session state.
------------------------------------------------------------------ -/

/-- A decision request from device devA in session "shared". -/
def request_devA : ModalityDecisionRequest :=
  { device_id := "devA"
    session_id := "shared"
    content_id := "c"
    content_position := 0
    available_bandwidth_kbps := 800
    predicted_signal_drop := true
    prediction_confidence := 1/2
    time_to_signal_drop := none
    content_description := none
    key_concepts := []
    visual_dependency_score := 1/2
    current_modality := Modality.VIDEO
    transition_history := [] }

/-- The same request issued by a different device devB. -/
def request_devB : ModalityDecisionRequest :=
  { request_devA with device_id := "devB" }

/-- C3 counterexample: the orchestrator keys its state on session_id alone, so
two sessions that differ only in deviceId share one SessionModalityState.
After devA decides and then devB decides under the same sessionId, the single
stored state still carries device_id "devA" but has transition_count 2: devB's
call read and mutated devA's state, refuting (deviceId, sessionId) isolation. -/
theorem session_state_shared_across_devices_counterexample :
    (((decide_modality_transition (OracleEvent.parsed parsed_audio_decision) request_devB
        (decide_modality_transition (OracleEvent.parsed parsed_audio_decision) request_devA
          empty_states 0).2 1).2 "shared").map
      (fun st => (st.device_id, st.transition_count))) = some ("devA", 2) := by
  with_unfolding_all decide

/-- C3 (amended): sessionId alone is the unit of isolation for the
orchestrator's decision state: decide, handlePanic and clear never touch the
entry of any other sessionId, and status reads only its own sessionId's entry
— but sessions sharing a sessionId share state regardless of deviceId. -/
theorem session_isolation_by_session_id (ev : OracleEvent)
    (request : ModalityDecisionRequest) (panic_request : PanicSignalRequest)
    (states : String → Option ModalityStatus) (now : ℚ) (sid other : String) :
    (other ≠ request.session_id →
      (decide_modality_transition ev request states now).2 other = states other) ∧
    (other ≠ panic_request.session_id →
      (handle_panic_signal panic_request states now).2 other = states other) ∧
    (other ≠ sid → clear_session states sid other = states other) ∧
    get_session_status states sid = states sid := by
  have hupd : ∀ (sid2 dev cid : String) (fm tm : Modality) (pos : ℚ) (suc : Bool) (now2 : ℚ),
      other ≠ sid2 →
      update_session_state states sid2 dev cid fm tm pos suc now2 other = states other := by
    intro sid2 dev cid fm tm pos suc now2 h
    simp [update_session_state, h]
  refine ⟨?_, ?_, ?_, rfl⟩
  · intro h
    rcases hm : modalityFromString
        ((get_modality_decision ev (contextOf request)).target_modality.getD "VIDEO") with _ | tm0
    · simp [decide_modality_transition, hm]
    · rcases ht : timingFromString
          ((get_modality_decision ev (contextOf request)).transition_timing.getD "IMMEDIATE")
          with _ | tt0
      · simp [decide_modality_transition, hm, ht]
      · have h2 := hupd request.session_id request.device_id request.content_id
          request.current_modality tm0 request.content_position true now h
        simp only [decide_modality_transition, hm, ht]
        split
        · exact h2
        · rfl
  · intro h
    exact hupd panic_request.session_id panic_request.device_id panic_request.content_id
      panic_request.current_modality _ panic_request.content_position true now h
  · intro h
    simp [clear_session, h]

/-- Witness for session_isolation_by_session_id: a decide for session "shared"
leaves session "otherSession" untouched. -/
theorem session_isolation_by_session_id_witness :
    (decide_modality_transition (OracleEvent.parsed parsed_audio_decision) request_devA
        empty_states 0).2 "otherSession" = empty_states "otherSession" ∧
    (handle_panic_signal panic_request_stable empty_states 0).2 "otherSession" =
      empty_states "otherSession" ∧
    clear_session empty_states "ses" "otherSession" = empty_states "otherSession" :=
  ⟨(session_isolation_by_session_id (OracleEvent.parsed parsed_audio_decision) request_devA
      panic_request_stable empty_states 0 "ses" "otherSession").1 (by decide),
    (session_isolation_by_session_id (OracleEvent.parsed parsed_audio_decision) request_devA
      panic_request_stable empty_states 0 "ses" "otherSession").2.1 (by decide),
    (session_isolation_by_session_id (OracleEvent.parsed parsed_audio_decision) request_devA
      panic_request_stable empty_states 0 "ses" "otherSession").2.2.1 (by decide)⟩

/- ------------------------------------------------------------------
C1: the fallback decision under oracle failures.
------------------------------------------------------------------ -/

/-- The request of Scenario D with a visually dependent content segment:
bandwidth 1200 Kbps, visual_dependency_score 0.8. -/
def request_bw1200_visual : ModalityDecisionRequest :=
  { request_bw1200 with visual_dependency_score := 4/5 }

/-- C1 counterexample: a decide whose oracle invocation fails, with bandwidth
1200 Kbps (≥ 1000) and visual_dependency_score 0.8, returns AUDIO with timing
WAIT_2S — not the claimed VIDEO with timing IMMEDIATE — because the client's
fallback rule also consults the visual dependency and delays audio. -/
theorem decide_fallback_not_video_counterexample :
    (decide_modality_transition OracleEvent.invokeFailure request_bw1200_visual
        empty_states 0).1.target_modality = Modality.AUDIO ∧
    (decide_modality_transition OracleEvent.invokeFailure request_bw1200_visual
        empty_states 0).1.transition_timing = TransitionTiming.WAIT_2S ∧
    (decide_modality_transition OracleEvent.invokeFailure request_bw1200_visual
        empty_states 0).1.decision_confidence = 3/5 := by
  refine ⟨?_, ?_, ?_⟩ <;> with_unfolding_all decide

/-- The response decide builds from any decision dict whose modality and
timing strings parse and whose confidence passes the pydantic range check. -/
theorem decide_response_eq (ev : OracleEvent) (request : ModalityDecisionRequest)
    (states : String → Option ModalityStatus) (now : ℚ)
    (tm : Modality) (tt : TransitionTiming)
    (hm : modalityFromString
      ((get_modality_decision ev (contextOf request)).target_modality.getD "VIDEO") = some tm)
    (ht : timingFromString
      ((get_modality_decision ev (contextOf request)).transition_timing.getD "IMMEDIATE") = some tt)
    (hc0 : 0 ≤ (get_modality_decision ev (contextOf request)).decision_confidence.getD (4/5))
    (hc1 : (get_modality_decision ev (contextOf request)).decision_confidence.getD (4/5) ≤ 1) :
    (decide_modality_transition ev request states now).1 =
      { target_modality := tm
        transition_timing := tt
        reasoning := (get_modality_decision ev (contextOf request)).reasoning.getD
          "AI decision reasoning"
        fallback_strategy := (get_modality_decision ev (contextOf request)).fallback_strategy
        decision_confidence :=
          (get_modality_decision ev (contextOf request)).decision_confidence.getD (4/5)
        model_used := (get_modality_decision ev (contextOf request)).model_used.getD
          "bedrock-claude-3.5-sonnet"
        processing_time_ms :=
          (get_modality_decision ev (contextOf request)).processing_time_ms.getD 0 } := by
  simp [decide_modality_transition, hm, ht, hc0, hc1]

/-- C1 (amended): the layered failure behaviour of decide.  (1) An oracle
invocation failure (and likewise a malformed-JSON response) yields the
client-level fallback: VIDEO/IMMEDIATE when bandwidth ≥ 1000 Kbps AND
visual dependency < 0.7, else AUDIO/WAIT_2S when bandwidth ≥ 500, else
TEXT_SUMMARY/IMMEDIATE; confidence 0.6 and reasoning tagged
"[Fallback rule-based decision]".  (2) A decision dict whose modality or
timing string parses to no enum member raises inside the orchestrator, which
returns the safe fallback: VIDEO when bandwidth ≥ 1000, AUDIO when ≥ 500,
else TEXT_SUMMARY — always IMMEDIATE, confidence 0.6, reasoning tagged
"[Fallback decision]" (so bandwidth 1200 yields VIDEO on this path).  (3) An
unavailable client yields the parsed mock success (confidence 0.85 or 0.90),
not a fallback decision. -/
theorem decide_oracle_failure_fallback (request : ModalityDecisionRequest)
    (states : String → Option ModalityStatus) (now : ℚ) :
    ((decide_modality_transition OracleEvent.invokeFailure request states now).1 =
      if 1000 ≤ request.available_bandwidth_kbps ∧ request.visual_dependency_score < 7/10 then
        { target_modality := Modality.VIDEO
          transition_timing := TransitionTiming.IMMEDIATE
          reasoning := "Sufficient bandwidth and low visual dependency. Maintain video. [Fallback rule-based decision]"
          fallback_strategy := some "Continue with best-effort delivery"
          decision_confidence := 3/5
          model_used := "rule-based-fallback"
          processing_time_ms := 0 }
      else if 500 ≤ request.available_bandwidth_kbps then
        { target_modality := Modality.AUDIO
          transition_timing := TransitionTiming.WAIT_2S
          reasoning := "Moderate bandwidth. Transition to audio after current segment. [Fallback rule-based decision]"
          fallback_strategy := some "Continue with best-effort delivery"
          decision_confidence := 3/5
          model_used := "rule-based-fallback"
          processing_time_ms := 0 }
      else
        { target_modality := Modality.TEXT_SUMMARY
          transition_timing := TransitionTiming.IMMEDIATE
          reasoning := "Low bandwidth. Immediate transition to text summary. [Fallback rule-based decision]"
          fallback_strategy := some "Continue with best-effort delivery"
          decision_confidence := 3/5
          model_used := "rule-based-fallback"
          processing_time_ms := 0 }) ∧
    ((decide_modality_transition OracleEvent.jsonParseFailure request states now).1 =
      (decide_modality_transition OracleEvent.invokeFailure request states now).1) ∧
    (∀ d : DecisionData,
      modalityFromString (d.target_modality.getD "VIDEO") = none ∨
        timingFromString (d.transition_timing.getD "IMMEDIATE") = none →
      (decide_modality_transition (OracleEvent.parsed d) request states now).1 =
        get_safe_fallback_decision request) ∧
    (get_safe_fallback_decision request =
      if VIDEO_MIN_BANDWIDTH ≤ request.available_bandwidth_kbps then
        { target_modality := Modality.VIDEO
          transition_timing := TransitionTiming.IMMEDIATE
          reasoning := "Sufficient bandwidth. Maintaining video. [Fallback decision]"
          fallback_strategy := some "Continue best-effort delivery"
          decision_confidence := 3/5
          model_used := "rule-based-fallback"
          processing_time_ms := 5 }
      else if AUDIO_MIN_BANDWIDTH ≤ request.available_bandwidth_kbps then
        { target_modality := Modality.AUDIO
          transition_timing := TransitionTiming.IMMEDIATE
          reasoning := "Moderate bandwidth. Transitioning to audio. [Fallback decision]"
          fallback_strategy := some "Continue best-effort delivery"
          decision_confidence := 3/5
          model_used := "rule-based-fallback"
          processing_time_ms := 5 }
      else
        { target_modality := Modality.TEXT_SUMMARY
          transition_timing := TransitionTiming.IMMEDIATE
          reasoning := "Low bandwidth. Transitioning to text summary. [Fallback decision]"
          fallback_strategy := some "Continue best-effort delivery"
          decision_confidence := 3/5
          model_used := "rule-based-fallback"
          processing_time_ms := 5 }) ∧
    (∀ b : Bool,
      (decide_modality_transition (OracleEvent.clientUnavailable b) request states now).1 =
        if b then
          { target_modality := Modality.AUDIO
            transition_timing := TransitionTiming.WAIT_2S
            reasoning := "Bandwidth at 800 Kbps suggests audio modality. Waiting 2s to complete current concept."
            fallback_strategy := some "If audio fails, transition to TEXT_SUMMARY"
            decision_confidence := 17/20
            model_used := "bedrock-claude-3.5-sonnet"
            processing_time_ms := 300 }
        else
          { target_modality := Modality.VIDEO
            transition_timing := TransitionTiming.IMMEDIATE
            reasoning := "Sufficient bandwidth to maintain video quality."
            fallback_strategy := some "Monitor for degradation"
            decision_confidence := 9/10
            model_used := "bedrock-claude-3.5-sonnet"
            processing_time_ms := 300 }) := by
  have hctx : ∀ ev : OracleEvent, get_modality_decision ev (contextOf request) =
      get_modality_decision ev
        { available_bandwidth_kbps := request.available_bandwidth_kbps
          visual_dependency_score := request.visual_dependency_score } := by
    intro ev
    rfl
  have hinvoke : ∀ ev : OracleEvent,
      get_modality_decision ev (contextOf request) = get_fallback_decision (contextOf request) →
      (decide_modality_transition ev request states now).1 =
      if 1000 ≤ request.available_bandwidth_kbps ∧ request.visual_dependency_score < 7/10 then
        { target_modality := Modality.VIDEO
          transition_timing := TransitionTiming.IMMEDIATE
          reasoning := "Sufficient bandwidth and low visual dependency. Maintain video. [Fallback rule-based decision]"
          fallback_strategy := some "Continue with best-effort delivery"
          decision_confidence := 3/5
          model_used := "rule-based-fallback"
          processing_time_ms := 0 }
      else if 500 ≤ request.available_bandwidth_kbps then
        { target_modality := Modality.AUDIO
          transition_timing := TransitionTiming.WAIT_2S
          reasoning := "Moderate bandwidth. Transition to audio after current segment. [Fallback rule-based decision]"
          fallback_strategy := some "Continue with best-effort delivery"
          decision_confidence := 3/5
          model_used := "rule-based-fallback"
          processing_time_ms := 0 }
      else
        { target_modality := Modality.TEXT_SUMMARY
          transition_timing := TransitionTiming.IMMEDIATE
          reasoning := "Low bandwidth. Immediate transition to text summary. [Fallback rule-based decision]"
          fallback_strategy := some "Continue with best-effort delivery"
          decision_confidence := 3/5
          model_used := "rule-based-fallback"
          processing_time_ms := 0 } := by
    intro ev hfb
    by_cases h1 : 1000 ≤ request.available_bandwidth_kbps ∧
        request.visual_dependency_score < 7/10
    · have hd : get_modality_decision ev (contextOf request) =
          { target_modality := some "VIDEO"
            transition_timing := some "IMMEDIATE"
            reasoning := some "Sufficient bandwidth and low visual dependency. Maintain video. [Fallback rule-based decision]"
            fallback_strategy := some "Continue with best-effort delivery"
            decision_confidence := some (3/5)
            model_used := some "rule-based-fallback"
            processing_time_ms := none } := by
        rw [hfb]
        simp [get_fallback_decision, contextOf, h1]
      rw [decide_response_eq ev request states now Modality.VIDEO TransitionTiming.IMMEDIATE
        (by rw [hd]; rfl) (by rw [hd]; rfl) (by rw [hd]; with_unfolding_all decide)
        (by rw [hd]; with_unfolding_all decide), hd, if_pos h1]
      rfl
    · by_cases h2 : 500 ≤ request.available_bandwidth_kbps
      · have hd : get_modality_decision ev (contextOf request) =
            { target_modality := some "AUDIO"
              transition_timing := some "WAIT_2S"
              reasoning := some "Moderate bandwidth. Transition to audio after current segment. [Fallback rule-based decision]"
              fallback_strategy := some "Continue with best-effort delivery"
              decision_confidence := some (3/5)
              model_used := some "rule-based-fallback"
              processing_time_ms := none } := by
          rw [hfb]
          simp [get_fallback_decision, contextOf, h1, h2]
        rw [decide_response_eq ev request states now Modality.AUDIO TransitionTiming.WAIT_2S
          (by rw [hd]; rfl) (by rw [hd]; rfl) (by rw [hd]; with_unfolding_all decide)
          (by rw [hd]; with_unfolding_all decide), hd, if_neg h1, if_pos h2]
        rfl
      · have hd : get_modality_decision ev (contextOf request) =
            { target_modality := some "TEXT_SUMMARY"
              transition_timing := some "IMMEDIATE"
              reasoning := some "Low bandwidth. Immediate transition to text summary. [Fallback rule-based decision]"
              fallback_strategy := some "Continue with best-effort delivery"
              decision_confidence := some (3/5)
              model_used := some "rule-based-fallback"
              processing_time_ms := none } := by
          rw [hfb]
          simp [get_fallback_decision, contextOf, h1, h2]
        rw [decide_response_eq ev request states now Modality.TEXT_SUMMARY
          TransitionTiming.IMMEDIATE (by rw [hd]; rfl) (by rw [hd]; rfl)
          (by rw [hd]; with_unfolding_all decide) (by rw [hd]; with_unfolding_all decide),
          hd, if_neg h1, if_neg h2]
        rfl
  refine ⟨?_, ?_, ?_, ?_, ?_⟩
  · exact hinvoke OracleEvent.invokeFailure rfl
  · rw [hinvoke OracleEvent.invokeFailure rfl, hinvoke OracleEvent.jsonParseFailure rfl]
  · intro d hd
    rcases hm : modalityFromString (d.target_modality.getD "VIDEO") with _ | tm0
    · simp [decide_modality_transition, get_modality_decision, hm]
    · rcases ht : timingFromString (d.transition_timing.getD "IMMEDIATE") with _ | tt0
      · simp [decide_modality_transition, get_modality_decision, hm, ht]
      · rcases hd with h | h
        · exact absurd h (by simp [hm])
        · exact absurd h (by simp [ht])
  · rfl
  · intro b
    cases b
    · exact decide_response_eq (OracleEvent.clientUnavailable false) request states now
        Modality.VIDEO TransitionTiming.IMMEDIATE rfl rfl
        (by norm_num [get_modality_decision, get_mock_decision])
        (by norm_num [get_modality_decision, get_mock_decision])
    · exact decide_response_eq (OracleEvent.clientUnavailable true) request states now
        Modality.AUDIO TransitionTiming.WAIT_2S rfl rfl
        (by norm_num [get_modality_decision, get_mock_decision])
        (by norm_num [get_modality_decision, get_mock_decision])

/-- Witness for decide_oracle_failure_fallback: at bandwidth 1200 with low
visual dependency an invocation failure yields VIDEO, and a malformed parsed
decision yields the orchestrator safe fallback. -/
theorem decide_oracle_failure_fallback_witness :
    (decide_modality_transition OracleEvent.invokeFailure request_bw1200
        empty_states 0).1.target_modality = Modality.VIDEO ∧
    (decide_modality_transition (OracleEvent.parsed malformed_modality_decision)
        request_bw1200 empty_states 0).1 = get_safe_fallback_decision request_bw1200 := by
  constructor
  · rw [(decide_oracle_failure_fallback request_bw1200 empty_states 0).1]
    with_unfolding_all decide
  · exact (decide_oracle_failure_fallback request_bw1200 empty_states 0).2.2.1
      malformed_modality_decision (Or.inl rfl)

/- ------------------------------------------------------------------
C4: session counters and history invariant.
------------------------------------------------------------------ -/

/-- The per-session invariant of C4. -/
def status_invariant (st : ModalityStatus) : Prop :=
  st.transition_count = st.successful_transitions + st.failed_transitions ∧
  st.transition_history.length ≤ history_capacity

/-- The table-wide invariant. -/
def states_invariant (states : String → Option ModalityStatus) : Prop :=
  ∀ s st, states s = some st → status_invariant st

/-- _update_session_state preserves the invariant. -/
theorem update_preserves_invariant (states : String → Option ModalityStatus)
    (session_id device_id content_id : String) (from_modality to_modality : Modality)
    (content_position : ℚ) (success : Bool) (now : ℚ)
    (h : states_invariant states) :
    states_invariant (update_session_state states session_id device_id content_id
      from_modality to_modality content_position success now) := by
  intro s st hst
  by_cases hs : s = session_id
  · subst hs
    simp only [update_session_state, if_pos rfl, Option.some_inj] at hst
    subst hst
    have hst0 : status_invariant (match states s with
        | some st => st
        | none =>
          { session_id := s
            device_id := device_id
            content_id := content_id
            current_modality := to_modality
            content_position := content_position
            last_transition_timestamp := now
            transition_count := 0
            transition_history := []
            total_buffering_events := 0
            successful_transitions := 0
            failed_transitions := 0 }) := by
      rcases hm : states s with _ | st1
      · exact ⟨rfl, by simp [history_capacity]⟩
      · exact h s st1 hm
    rcases hst0 with ⟨hcount, hlen⟩
    by_cases hft : from_modality ≠ to_modality
    · simp only [if_pos hft, status_invariant]
      constructor
      · simp only [hcount]
        cases success <;> simp <;> omega
      · dsimp only
        split
        · simp only [List.length_drop]
          omega
        · next hnotlong =>
          simp only [not_lt] at hnotlong
          exact hnotlong
    · simp only [if_neg hft, status_invariant]
      exact ⟨hcount, hlen⟩
  · simp only [update_session_state, if_neg hs] at hst
    exact h s st hst

/-- Every orchestrator call preserves the invariant. -/
theorem apply_op_preserves_invariant (states : String → Option ModalityStatus)
    (op : OrchOp) (h : states_invariant states) :
    states_invariant (apply_op states op) := by
  cases op with
  | decision ev request now =>
    show states_invariant (decide_modality_transition ev request states now).2
    rcases hm : modalityFromString
        ((get_modality_decision ev (contextOf request)).target_modality.getD "VIDEO")
        with _ | tm0
    · simpa [decide_modality_transition, hm] using h
    · rcases ht : timingFromString
          ((get_modality_decision ev (contextOf request)).transition_timing.getD "IMMEDIATE")
          with _ | tt0
      · simpa [decide_modality_transition, hm, ht] using h
      · have h2 := update_preserves_invariant states request.session_id request.device_id
          request.content_id request.current_modality tm0 request.content_position true now h
        simp only [decide_modality_transition, hm, ht]
        split
        · exact h2
        · exact h
  | panic request now =>
    exact update_preserves_invariant states request.session_id request.device_id
      request.content_id request.current_modality _ request.content_position true now h

/-- The trimmed history after appending a record still ends with that record. -/
theorem trim_getLast (l : List TransitionRecord) (r : TransitionRecord) :
    (if history_capacity < (l ++ [r]).length
      then (l ++ [r]).drop ((l ++ [r]).length - history_capacity)
      else l ++ [r]).getLast? = some r := by
  split
  · next hlong =>
    rw [List.getLast?_drop, if_neg (by
      simp only [history_capacity, List.length_append] at hlong ⊢
      omega)]
    exact List.getLast?_concat _
  · exact List.getLast?_concat _

/-- The invariant holds after any sequence of orchestrator calls. -/
theorem run_ops_invariant (ops : List OrchOp) : states_invariant (run_ops ops) := by
  unfold run_ops
  have hgen : ∀ (states : String → Option ModalityStatus), states_invariant states →
      states_invariant (ops.foldl apply_op states) := by
    induction ops with
    | nil => intro states hs; exact hs
    | cons op ops2 ih =>
      intro states hs
      exact ih (apply_op states op) (apply_op_preserves_invariant states op hs)
  exact hgen empty_states (fun s st2 h2 => by simp [empty_states] at h2)

/-- C4: after any sequence of decide and handlePanic calls every session state
satisfies transitionCount == successCount + failureCount with history length
at most 10, and whenever an update records a transition the new record sits at
the end of the history (most-recent-last). -/
theorem session_counters_invariant :
    (∀ (ops : List OrchOp) (session_id : String) (st : ModalityStatus),
      run_ops ops session_id = some st →
      st.transition_count = st.successful_transitions + st.failed_transitions ∧
      st.transition_history.length ≤ history_capacity) ∧
    (∀ (states : String → Option ModalityStatus)
      (session_id device_id content_id : String) (from_modality to_modality : Modality)
      (content_position : ℚ) (success : Bool) (now : ℚ),
      from_modality ≠ to_modality →
      ((update_session_state states session_id device_id content_id from_modality
          to_modality content_position success now) session_id).map
        (fun st => st.transition_history.getLast?) =
        some (some
          { from_modality := from_modality
            to_modality := to_modality
            timestamp := now
            position := content_position
            success := success })) := by
  constructor
  · intro ops session_id st hst
    exact run_ops_invariant ops session_id st hst
  · intro states session_id device_id content_id from_modality to_modality
      content_position success now hft
    simp only [update_session_state, if_pos rfl, if_pos hft, Option.map_some',
      Option.some_inj]
    exact trim_getLast _ _

/-- A one-call demo sequence for the invariant witness. -/
def demo_ops : List OrchOp :=
  [OrchOp.panic panic_request_critical 0]

/-- A placeholder status used only to read the demo lookup result. -/
def default_status : ModalityStatus :=
  { session_id := ""
    device_id := ""
    content_id := ""
    current_modality := Modality.VIDEO
    content_position := 0
    last_transition_timestamp := 0
    transition_count := 0
    transition_history := []
    total_buffering_events := 0
    successful_transitions := 0
    failed_transitions := 0 }

/-- Witness for session_counters_invariant: the invariant read off after one
panic call, and the most-recent-last property at a concrete update. -/
theorem session_counters_invariant_witness :
    (((run_ops demo_ops "ses").getD default_status).transition_count =
        ((run_ops demo_ops "ses").getD default_status).successful_transitions +
          ((run_ops demo_ops "ses").getD default_status).failed_transitions ∧
      ((run_ops demo_ops "ses").getD default_status).transition_history.length ≤
        history_capacity) ∧
    ((update_session_state empty_states "ses" "dev" "c" Modality.VIDEO Modality.AUDIO
        0 true 0) "ses").map (fun st => st.transition_history.getLast?) =
      some (some
        { from_modality := Modality.VIDEO
          to_modality := Modality.AUDIO
          timestamp := 0
          position := 0
          success := true }) :=
  ⟨session_counters_invariant.1 demo_ops "ses" ((run_ops demo_ops "ses").getD default_status)
      (by with_unfolding_all decide),
    session_counters_invariant.2 empty_states "ses" "dev" "c" Modality.VIDEO Modality.AUDIO
      0 true 0 (by decide)⟩

/- ------------------------------------------------------------------
C5: the heuristic predictor.
------------------------------------------------------------------ -/

/-- C5's confidence as the spec words it: least-squares slope flags
(signalDeclining, bandwidthDeclining, latencyIncreasing), base confidence 0.6
iff at least two flags hold, severity additions for the current values,
clamped to [0,1]. -/
def heuristicConfidenceSpec (pts : List NetworkTelemetry) : ℚ :=
  max 0 (min 1
    ((if 2 ≤ (if trend_slope (pts.map (·.signal_strength)) < -(1/20) then 1 else 0) +
        (if trend_slope (pts.map (·.bandwidth_kbps)) < -100 then 1 else 0) +
        (if trend_slope (pts.map (·.latency_ms)) > 50 then (1:ℕ) else 0)
      then (3:ℚ)/5 else 0) +
      ((if (pts.map (·.signal_strength)).getLastD 0 < 3/10 then (1:ℚ)/5 else 0) +
        (if (pts.map (·.bandwidth_kbps)).getLastD 0 < 500 then (3:ℚ)/20 else 0) +
        (if (pts.map (·.latency_ms)).getLastD 0 > 500 then (3:ℚ)/20 else 0))))

/-- The code's sequential confidence computation agrees with the spec's
flattened, [0,1]-clamped form. -/
theorem confidence_calc_eq (st bt lt cs cb cl : ℚ) :
    confidence_calc st bt lt cs cb cl =
      max 0 (min 1
        ((if 2 ≤ (if st < -(1/20) then 1 else 0) + (if bt < -100 then 1 else 0) +
            (if lt > 50 then (1:ℕ) else 0) then (3:ℚ)/5 else 0) +
          ((if cs < 3/10 then (1:ℚ)/5 else 0) + (if cb < 500 then (3:ℚ)/20 else 0) +
            (if cl > 500 then (3:ℚ)/20 else 0)))) := by
  unfold confidence_calc
  split_ifs <;>
    first
      | omega
      | norm_num [min_def, max_def]

/-- C5: for any window of at least sequence_length points, the predictor
(over the most recent sequence_length points) emits a prediction exactly when
the spec's flag-based confidence reaches the 0.75 threshold, and an emitted
prediction carries that confidence and predictorType "heuristic". -/
theorem heuristic_predictor_spec (telemetry_history : List NetworkTelemetry)
    (device_id session_id : String) (now : ℚ)
    (h : sequence_length ≤ telemetry_history.length) :
    ((predict_signal_drop telemetry_history device_id session_id now).isSome = true ↔
      PREDICTION_THRESHOLD ≤
        heuristicConfidenceSpec (lastN sequence_length telemetry_history)) ∧
    (∀ p, predict_signal_drop telemetry_history device_id session_id now = some p →
      p.confidence = heuristicConfidenceSpec (lastN sequence_length telemetry_history) ∧
      p.predictor_type = "heuristic") := by
  have hnot : ¬ telemetry_history.length < sequence_length := not_lt.mpr h
  have hceq : heuristic_confidence
        (telemetry_history.drop (telemetry_history.length - sequence_length)) =
      heuristicConfidenceSpec
        (telemetry_history.drop (telemetry_history.length - sequence_length)) := by
    unfold heuristic_confidence heuristicConfidenceSpec
    exact confidence_calc_eq _ _ _ _ _ _
  simp only [lastN]
  constructor
  · simp only [predict_signal_drop, predict_with_heuristic, hnot, if_false]
    split_ifs with hth
    · simp only [Option.isSome_some, true_iff]
      rw [← hceq]
      exact hth
    · refine iff_of_false (by simp) ?_
      intro hle
      rw [← hceq] at hle
      exact hth hle
  · intro p hp
    simp only [predict_signal_drop, predict_with_heuristic, hnot, if_false] at hp
    split_ifs at hp with hth
    have hpeq := (Option.some_inj.mp hp).symm
    subst hpeq
    exact ⟨hceq.symm ▸ rfl, rfl⟩

/-- Scenario A's i-th sample: signal declining linearly 0.9 → 0.1 and
bandwidth declining 3000 → 200 Kbps over 10 samples at 1-second intervals;
constant latency 100 ms. -/
def scenario_point (i : ℕ) : NetworkTelemetry :=
  { device_id := "dev"
    session_id := "ses"
    timestamp := i
    signal_strength := 9/10 - (i : ℚ) * (4/45)
    latency_ms := 100
    packet_loss_percent := 0
    bandwidth_kbps := 3000 - (i : ℚ) * (2800/9)
    gps_velocity_kmh := 0 }

/-- The 10-point Scenario A window. -/
def scenario_window : List NetworkTelemetry := (List.range 10).map scenario_point

/-- Witness for heuristic_predictor_spec: Scenario A emits a prediction with
confidence 0.95 ≥ 0.75 and predictorType "heuristic". -/
theorem heuristic_predictor_spec_witness :
    ((predict_signal_drop scenario_window "dev" "ses" 0).map
      (fun p => (p.confidence, p.predictor_type))) = some (19/20, "heuristic") ∧
    (predict_signal_drop scenario_window "dev" "ses" 0).isSome = true :=
  ⟨by with_unfolding_all decide,
    (heuristic_predictor_spec scenario_window "dev" "ses" 0 (by decide)).1.mpr
      (by with_unfolding_all decide)⟩
